import Mathlib

/-!
Verification development for the two icon scripts of this repository:
`Assets/create-icon.py` (the Cropper) and `Assets/generate-icons.py`
(the Generator).  Images are modelled by their observable attributes
(width, height, pixel mode); the imaging library's `convert`, `crop`,
`resize` and `save` operations are modelled by their effect on those
attributes.  Python's `int(x * c)` on the non-negative quantities used
here truncates toward zero, i.e. takes a floor; the float constants
0.17, 0.56 and 1.1 are modelled by the exact rationals 17/100, 56/100
and 11/10 (the float product agrees with the exact floor for every
height up to 2·10^6, far beyond any real image dimension).
-/

/-- An in-memory bitmap as the scripts observe it: pixel dimensions and
PIL mode string (e.g. "RGBA", "RGB", "L"). -/
structure Image where
  width : Nat
  height : Nat
  mode : String
deriving DecidableEq, Repr

/-- `img.convert('RGBA')` guarded by `if img.mode != 'RGBA'`, as both
scripts do. -/
def convert_RGBA (img : Image) : Image :=
  if img.mode = "RGBA" then img else { img with mode := "RGBA" }

/-- `img.resize((w, h), Image.LANCZOS)`: the result has exactly the
requested dimensions and keeps the pixel mode. -/
def resize (img : Image) (w h : Nat) : Image :=
  { width := w, height := h, mode := img.mode }

/-- One file written by `save(path, 'PNG', optimize=True)`: destination
path, format string, the image saved, and the optimize flag. -/
structure SavedFile where
  path : String
  format : String
  image : Image
  optimize : Bool
deriving DecidableEq, Repr

/-! ## Cropper geometry (`create-icon.py`, `create_icon`) -/

/-- `tower_top = int(height * 0.17)`. -/
def tower_top (height : Nat) : Nat := height * 17 / 100

/-- `tower_bottom = int(height * 0.56)`. -/
def tower_bottom (height : Nat) : Nat := height * 56 / 100

/-- `tower_height = tower_bottom - tower_top`. -/
def tower_height (height : Nat) : Nat := tower_bottom height - tower_top height

/-- `square_size = int(tower_height * 1.1)`. -/
def square_size (height : Nat) : Nat := tower_height height * 11 / 10

/-- `center_x = width // 2`. -/
def center_x (width : Nat) : Nat := width / 2

/-- `center_y = (tower_top + tower_bottom) // 2`. -/
def center_y (height : Nat) : Nat := (tower_top height + tower_bottom height) / 2

/-- The crop box `(left, top, right, bottom)`.  Python ints are signed,
so the edges live in `ℤ` (before clamping, `left` and `top` can go
negative). -/
structure CropRect where
  left : Int
  top : Int
  right : Int
  bottom : Int
deriving DecidableEq, Repr

/-- The rectangle as first computed in `create_icon`, before the
`# Ensure bounds` block:
`left = center_x - square_size // 2`, `top = center_y - square_size // 2`,
`right = left + square_size`, `bottom = top + square_size`. -/
def cropRectUnclamped (width height : Nat) : CropRect :=
  let ss := square_size height
  let left : Int := (center_x width : Int) - (ss / 2 : Nat)
  let top : Int := (center_y height : Int) - (ss / 2 : Nat)
  { left := left, top := top, right := left + ss, bottom := top + ss }

/-- The rectangle after the `# Ensure bounds` block:
`left = max(0, left)`, `top = max(0, top)`,
`right = min(width, right)`, `bottom = min(height, bottom)`. -/
def cropRect (width height : Nat) : CropRect :=
  let r := cropRectUnclamped width height
  { left := max 0 r.left
    top := max 0 r.top
    right := min (width : Int) r.right
    bottom := min (height : Int) r.bottom }

/-- `img.crop((left, top, right, bottom))`: the result is
`(right - left) × (bottom - top)` pixels, same mode. -/
def crop (img : Image) (r : CropRect) : Image :=
  { width := (r.right - r.left).toNat
    height := (r.bottom - r.top).toNat
    mode := img.mode }

/-- `create_icon`: convert to RGBA, compute the crop rectangle, crop,
resize to 1024×1024 with LANCZOS, save as optimized PNG at
`output_path`. -/
def create_icon (img0 : Image) (output_path : String) : SavedFile :=
  let img := convert_RGBA img0
  let cropped := crop img (cropRect img.width img.height)
  let resized := resize cropped 1024 1024
  { path := output_path, format := "PNG", image := resized, optimize := true }

/-- The complete list of files one Cropper run writes. -/
def cropperWrites (img0 : Image) (output_path : String) : List SavedFile :=
  [create_icon img0 output_path]

/-! ## Generator (`generate-icons.py`) -/

/-- The fixed iOS icon specification table `IOS_ICONS`:
`(filename, size)` pairs, in source order. -/
def IOS_ICONS : List (String × Nat) :=
  [ ("icon-20@2x.png", 40)
  , ("icon-20@3x.png", 60)
  , ("icon-29@2x.png", 58)
  , ("icon-29@3x.png", 87)
  , ("icon-40@2x.png", 80)
  , ("icon-40@3x.png", 120)
  , ("icon-60@2x.png", 120)
  , ("icon-60@3x.png", 180)
  , ("icon-20.png", 20)
  , ("icon-20@2x-ipad.png", 40)
  , ("icon-29.png", 29)
  , ("icon-29@2x-ipad.png", 58)
  , ("icon-40.png", 40)
  , ("icon-40@2x-ipad.png", 80)
  , ("icon-76.png", 76)
  , ("icon-76@2x.png", 152)
  , ("icon-83.5@2x.png", 167)
  , ("icon-1024.png", 1024) ]

/-- The body of the Generator's loop for one table entry `(filename,
size)` applied to the already-converted image: LANCZOS-resize to
`size × size` and save as optimized PNG named `filename`. -/
def mkIcon (img : Image) (entry : String × Nat) : SavedFile :=
  { path := entry.1
    format := "PNG"
    image := resize img entry.2 entry.2
    optimize := true }

/-- `generate_icons`: convert the source to RGBA once, then produce one
saved file per `IOS_ICONS` entry, in table order. -/
def generate_icons (img0 : Image) : List SavedFile :=
  let img := convert_RGBA img0
  IOS_ICONS.map (mkIcon img)

/-- The Generator's loop with a failure oracle: `fails k = true` means
the resize/save for the `k`-th entry raises.  The loop writes entries
in order; when an entry raises, its own file is not written and the
loop (and process) stops, so exactly the files of the earlier entries
exist.  Returns the files actually written. -/
def writeIcons (fails : Nat → Bool) (img : Image) :
    List (String × Nat) → Nat → List SavedFile
  | [], _ => []
  | entry :: rest, k =>
    if fails k then []
    else mkIcon img entry :: writeIcons fails img rest (k + 1)

/-- `generate_icons` under the failure oracle: the real run is the
oracle that never fails. -/
def generate_iconsFallible (fails : Nat → Bool) (img0 : Image) : List SavedFile :=
  writeIcons fails (convert_RGBA img0) IOS_ICONS 0

/-! ## Script entry points and observable effects -/

/-- Observable effects of one Generator process run. -/
structure GenEffects where
  exitCode : Nat
  printedError : Bool
  imageOpened : Bool
  dirCreated : Bool
  files : List SavedFile
deriving DecidableEq, Repr

/-- The Generator process, `main` composed with `generate_icons`:
`sourceExists` is the `os.path.exists(source)` test, `decoded` is the
outcome of `Image.open` (`none` = decode error raised).  The missing-
file branch prints the error and calls `sys.exit(1)` before any image
operation; a decode failure raises inside `generate_icons` before
`os.makedirs(output_dir)` is reached (CPython exits with status 1 on
an unhandled exception). -/
def generatorMain (sourceExists : Bool) (decoded : Option Image) : GenEffects :=
  if sourceExists then
    match decoded with
    | none =>
      { exitCode := 1, printedError := false, imageOpened := true
        dirCreated := false, files := [] }
    | some img =>
      { exitCode := 0, printedError := false, imageOpened := true
        dirCreated := true, files := generate_icons img }
  else
    { exitCode := 1, printedError := true, imageOpened := false
      dirCreated := false, files := [] }

/-! ## Filesystem model (for idempotence) -/

/-- A filesystem: each path holds the content last written to it, if
any. -/
def FS : Type := String → Option SavedFile

/-- Writing a file overwrites whatever the path held. -/
def writeFS (fs : FS) (p : String) (c : SavedFile) : FS :=
  fun q => if q = p then some c else fs q

/-- Perform a list of writes in order. -/
def runWrites : List (String × SavedFile) → FS → FS
  | [], fs => fs
  | (p, c) :: ws, fs => runWrites ws (writeFS fs p c)

/-- One Cropper run as a filesystem transformer. -/
def runCropper (img0 : Image) (output_path : String) (fs : FS) : FS :=
  writeFS fs output_path (create_icon img0 output_path)

/-- One Generator run (with the source decodable) as a filesystem
transformer: each table entry's file is written at its filename. -/
def runGenerator (img0 : Image) (fs : FS) : FS :=
  runWrites ((generate_icons img0).map (fun f => (f.path, f))) fs

/-- The last content a write list assigns to a path, if any. -/
def lastWrite : List (String × SavedFile) → String → Option SavedFile
  | [], _ => none
  | (p, c) :: ws, q =>
    match lastWrite ws q with
    | some d => some d
    | none => if q = p then some c else none

/-! ## Reference algorithm from the spec (refinement target for the
Cropper's geometry) -/

/-- Clamp an edge into `[0, hi]`. -/
def clampEdge (hi x : Int) : Int := max 0 (min hi x)

/-- The crop rectangle exactly as the spec's reference algorithm words
it: `tower_top = floor(H * 0.17)`, `tower_bottom = floor(H * 0.56)`,
side `= floor((tower_bottom - tower_top) * 1.1)`, the square centered
on `W // 2` horizontally and on `(tower_top + tower_bottom) // 2`
vertically, and all four edges clamped into `[0, W]` / `[0, H]`. -/
def specCropRect (width height : Nat) : CropRect :=
  let tt : Nat := height * 17 / 100
  let tb : Nat := height * 56 / 100
  let side : Nat := (tb - tt) * 11 / 10
  let cx : Nat := width / 2
  let cy : Nat := (tt + tb) / 2
  let left : Int := (cx : Int) - (side / 2 : Nat)
  let top : Int := (cy : Int) - (side / 2 : Nat)
  { left := clampEdge width left
    top := clampEdge height top
    right := clampEdge width (left + side)
    bottom := clampEdge height (top + side) }

/-! ## Theorems -/

/-- C1: for every source image of width `W ≥ 1` and height `H ≥ 1`,
the Cropper computes its crop rectangle exactly as the spec's
reference algorithm (tops/bottom as floors of `H·0.17` / `H·0.56`,
side `floor((tb − tt)·1.1)`, square centered on `W // 2` and
`(tt + tb) // 2`, all four edges clamped into `[0, W]` / `[0, H]`). -/
theorem cropRect_eq_specCropRect (W H : Nat) (hW : 1 ≤ W) (hH : 1 ≤ H) :
    cropRect W H = specCropRect W H := by
  simp only [cropRect, cropRectUnclamped, specCropRect, clampEdge, square_size,
    tower_height, tower_top, tower_bottom, center_x, center_y, CropRect.mk.injEq]
  refine ⟨?_, ?_, ?_, ?_⟩ <;> omega

/-- Witness for C1 at the concrete input `W = 1024`, `H = 1024`. -/
theorem cropRect_eq_specCropRect_witness :
    1 ≤ 1024 ∧ cropRect 1024 1024 = specCropRect 1024 1024 :=
  ⟨by decide, cropRect_eq_specCropRect 1024 1024 (by decide) (by decide)⟩

/-- C5: for every `W ≥ 1`, `H ≥ 1`, the clamped crop rectangle
satisfies `0 ≤ left ≤ right ≤ W` and `0 ≤ top ≤ bottom ≤ H`. -/
theorem cropRect_nonstrict_bounds (W H : Nat) (hW : 1 ≤ W) (hH : 1 ≤ H) :
    0 ≤ (cropRect W H).left ∧ (cropRect W H).left ≤ (cropRect W H).right ∧
      (cropRect W H).right ≤ (W : Int) ∧
    0 ≤ (cropRect W H).top ∧ (cropRect W H).top ≤ (cropRect W H).bottom ∧
      (cropRect W H).bottom ≤ (H : Int) := by
  simp only [cropRect, cropRectUnclamped, square_size, tower_height, tower_top,
    tower_bottom, center_x, center_y]
  refine ⟨?_, ?_, ?_, ?_, ?_, ?_⟩ <;> omega

/-- Witness for C5 at the concrete input `W = 2000`, `H = 1000`. -/
theorem cropRect_nonstrict_bounds_witness :
    0 ≤ (cropRect 2000 1000).left ∧
      (cropRect 2000 1000).left ≤ (cropRect 2000 1000).right ∧
      (cropRect 2000 1000).right ≤ (2000 : Int) ∧
    0 ≤ (cropRect 2000 1000).top ∧
      (cropRect 2000 1000).top ≤ (cropRect 2000 1000).bottom ∧
      (cropRect 2000 1000).bottom ≤ (1000 : Int) :=
  cropRect_nonstrict_bounds 2000 1000 (by decide) (by decide)

/-- For `H ≥ 2` the tower band is non-degenerate:
`int(H * 0.17) < int(H * 0.56)`. -/
theorem tower_top_lt_tower_bottom (H : Nat) (hH : 2 ≤ H) :
    H * 17 / 100 < H * 56 / 100 := by
  rcases Nat.lt_or_ge H 3 with h3 | h3
  · have hH2 : H = 2 := by omega
    subst hH2; decide
  · have h : H * 17 + 100 ≤ H * 56 := by omega
    have h2 : (H * 17 + 100) / 100 ≤ H * 56 / 100 := Nat.div_le_div_right h
    have h4 : (H * 17 + 100) / 100 = H * 17 / 100 + 1 := Nat.add_div_right _ (by norm_num)
    omega

/-- C4 fails as stated: at a 1×1 source image the clamped rectangle is
degenerate (`left = right = 0`), so `left < right` does not hold. -/
theorem cropRect_strict_counterexample :
    ¬ ((cropRect 1 1).left < (cropRect 1 1).right) := by decide

/-- C4 amended: for every `W ≥ 1` and `H ≥ 2` (at `H = 1` the
rectangle degenerates to a point), the clamped rectangle satisfies
`0 ≤ left < right ≤ W` and `0 ≤ top < bottom ≤ H`, and before
clamping `right − left = bottom − top` (the rectangle is square). -/
theorem cropRect_strict_bounds (W H : Nat) (hW : 1 ≤ W) (hH : 2 ≤ H) :
    (0 ≤ (cropRect W H).left ∧ (cropRect W H).left < (cropRect W H).right ∧
      (cropRect W H).right ≤ (W : Int)) ∧
    (0 ≤ (cropRect W H).top ∧ (cropRect W H).top < (cropRect W H).bottom ∧
      (cropRect W H).bottom ≤ (H : Int)) ∧
    (cropRectUnclamped W H).right - (cropRectUnclamped W H).left =
      (cropRectUnclamped W H).bottom - (cropRectUnclamped W H).top := by
  have hlt : H * 17 / 100 < H * 56 / 100 := tower_top_lt_tower_bottom H hH
  simp only [cropRect, cropRectUnclamped, square_size, tower_height, tower_top,
    tower_bottom, center_x, center_y]
  refine ⟨⟨?_, ?_, ?_⟩, ⟨?_, ?_, ?_⟩, ?_⟩ <;> omega

/-- Witness for the amended C4 at the concrete input `W = 800`,
`H = 800`. -/
theorem cropRect_strict_bounds_witness :
    (0 ≤ (cropRect 800 800).left ∧
      (cropRect 800 800).left < (cropRect 800 800).right ∧
      (cropRect 800 800).right ≤ (800 : Int)) ∧
    (0 ≤ (cropRect 800 800).top ∧
      (cropRect 800 800).top < (cropRect 800 800).bottom ∧
      (cropRect 800 800).bottom ≤ (800 : Int)) ∧
    (cropRectUnclamped 800 800).right - (cropRectUnclamped 800 800).left =
      (cropRectUnclamped 800 800).bottom - (cropRectUnclamped 800 800).top :=
  cropRect_strict_bounds 800 800 (by decide) (by decide)

/-- C2: for every square source image the Generator produces exactly 18
files, one per `IOS_ICONS` entry in table order, and the file for
entry `(filename, size)` is named `filename` and measures exactly
`size × size`. -/
theorem generate_icons_count_and_sizes (img : Image)
    (hsq : img.width = img.height) :
    (generate_icons img).length = 18 ∧
    (generate_icons img).map (fun f => (f.path, f.image.width, f.image.height)) =
      IOS_ICONS.map (fun e => (e.1, e.2, e.2)) :=
  ⟨rfl, rfl⟩

/-- Witness for C2 at the concrete 300×300 RGBA source. -/
theorem generate_icons_count_and_sizes_witness :
    (Image.mk 300 300 "RGBA").width = (Image.mk 300 300 "RGBA").height ∧
    (generate_icons (Image.mk 300 300 "RGBA")).length = 18 ∧
    (generate_icons (Image.mk 300 300 "RGBA")).map
        (fun f => (f.path, f.image.width, f.image.height)) =
      IOS_ICONS.map (fun e => (e.1, e.2, e.2)) :=
  ⟨rfl, generate_icons_count_and_sizes (Image.mk 300 300 "RGBA") rfl⟩

/-- C3: whatever the source dimensions and mode, the Cropper writes
exactly one file, a PNG (optimize on) whose image is exactly
1024×1024 in RGBA mode. -/
theorem cropperWrites_single_1024_rgba (img : Image) (out : String) :
    cropperWrites img out =
      [{ path := out, format := "PNG"
         image := { width := 1024, height := 1024, mode := "RGBA" }
         optimize := true }] := by
  have hmode : (convert_RGBA img).mode = "RGBA" := by
    by_cases h : img.mode = "RGBA" <;> simp [convert_RGBA, h]
  simp [cropperWrites, create_icon, resize, crop, hmode]

/-- C9: the Generator never checks squareness: for every source image
with `width ≠ height` it still resamples the full (converted) image to
each of the 18 table sizes, producing all 18 files at exactly
`size × size`. -/
theorem generate_icons_nonsquare (img : Image)
    (hns : img.width ≠ img.height) :
    generate_icons img = IOS_ICONS.map (mkIcon (convert_RGBA img)) ∧
    (generate_icons img).length = 18 ∧
    (generate_icons img).map (fun f => (f.path, f.image.width, f.image.height)) =
      IOS_ICONS.map (fun e => (e.1, e.2, e.2)) :=
  ⟨rfl, rfl, rfl⟩

/-- Witness for C9 at the concrete non-square 2000×1000 RGB source. -/
theorem generate_icons_nonsquare_witness :
    (Image.mk 2000 1000 "RGB").width ≠ (Image.mk 2000 1000 "RGB").height ∧
    generate_icons (Image.mk 2000 1000 "RGB") =
      IOS_ICONS.map (mkIcon (convert_RGBA (Image.mk 2000 1000 "RGB"))) ∧
    (generate_icons (Image.mk 2000 1000 "RGB")).length = 18 ∧
    (generate_icons (Image.mk 2000 1000 "RGB")).map
        (fun f => (f.path, f.image.width, f.image.height)) =
      IOS_ICONS.map (fun e => (e.1, e.2, e.2)) :=
  ⟨by decide, generate_icons_nonsquare (Image.mk 2000 1000 "RGB") (by decide)⟩

/-- C6: when the source path does not exist, the Generator writes no
file, opens no image, prints the diagnostic and exits with status 1. -/
theorem generatorMain_missing_source (decoded : Option Image) :
    (generatorMain false decoded).files = [] ∧
    (generatorMain false decoded).imageOpened = false ∧
    (generatorMain false decoded).printedError = true ∧
    (generatorMain false decoded).exitCode = 1 := by
  simp [generatorMain]

/-- C10: when the source path exists but the file fails to decode, the
run raises before `os.makedirs`: the output directory is not created,
no file is written, and the exit status is non-zero. -/
theorem generatorMain_decode_failure :
    (generatorMain true none).dirCreated = false ∧
    (generatorMain true none).files = [] ∧
    (generatorMain true none).exitCode ≠ 0 := by
  simp [generatorMain]

/-- Prefix behavior of the Generator's loop under the failure oracle:
if the oracle first raises at index `k` (counting from `i`), the files
written are exactly those of the entries before `k`. -/
theorem writeIcons_take (fails : Nat → Bool) (img : Image)
    (es : List (String × Nat)) :
    ∀ i k : Nat, i ≤ k → fails k = true →
      (∀ j, i ≤ j → j < k → fails j = false) →
      writeIcons fails img es i = (es.take (k - i)).map (mkIcon img) := by
  induction es with
  | nil =>
    intro i k _ _ _
    simp [writeIcons]
  | cons e es ih =>
    intro i k hik hk hj
    rcases Nat.eq_or_lt_of_le hik with heq | hlt
    · subst heq
      simp [writeIcons, hk, Nat.sub_self]
    · have hi : fails i = false := hj i le_rfl hlt
      have hrec := ih (i + 1) k hlt hk (fun j h1 h2 => hj j (by omega) h2)
      have hki : k - i = (k - (i + 1)) + 1 := by omega
      rw [hki]
      simp [writeIcons, hi, hrec, List.take_succ_cons]

/-- C7: if the resize/write for the `k`-th table entry fails (and none
before it did), the Generator stops there: exactly the files of the
first `k` entries exist, unchanged, and no later entry is processed. -/
theorem generate_iconsFallible_stops (fails : Nat → Bool) (img0 : Image)
    (k : Nat) (hk : fails k = true) (hj : ∀ j, j < k → fails j = false) :
    generate_iconsFallible fails img0 =
      (IOS_ICONS.take k).map (mkIcon (convert_RGBA img0)) := by
  have h := writeIcons_take fails (convert_RGBA img0) IOS_ICONS 0 k
    (Nat.zero_le k) hk (fun j _ h2 => hj j h2)
  simpa [generate_iconsFallible] using h

/-- Witness for C7: the oracle that fails exactly at entry 3 yields
precisely the files of entries 0, 1 and 2. -/
theorem generate_iconsFallible_stops_witness :
    (fun i => decide (i = 3)) 3 = true ∧
    (∀ j, j < 3 → (fun i => decide (i = 3)) j = false) ∧
    generate_iconsFallible (fun i => decide (i = 3)) (Image.mk 300 300 "RGBA") =
      (IOS_ICONS.take 3).map (mkIcon (convert_RGBA (Image.mk 300 300 "RGBA"))) :=
  ⟨by decide, by decide,
    generate_iconsFallible_stops (fun i => decide (i = 3))
      (Image.mk 300 300 "RGBA") 3 (by decide) (by decide)⟩

/-- Unfolding a run of writes: each path ends up holding the last
content the write list assigns to it, and paths not written keep their
previous content. -/
theorem runWrites_apply (ws : List (String × SavedFile)) :
    ∀ (fs : FS) (q : String),
      runWrites ws fs q =
        match lastWrite ws q with
        | some c => some c
        | none => fs q := by
  induction ws with
  | nil => intro fs q; rfl
  | cons w ws ih =>
    intro fs q
    obtain ⟨p, c⟩ := w
    rw [show runWrites ((p, c) :: ws) fs = runWrites ws (writeFS fs p c) from rfl, ih]
    cases h : lastWrite ws q with
    | some d => simp [lastWrite, h]
    | none =>
      by_cases hq : q = p
      · subst hq
        simp [lastWrite, h, writeFS]
      · simp [lastWrite, h, writeFS, hq]

/-- Replaying the same write list leaves the filesystem unchanged. -/
theorem runWrites_idem (ws : List (String × SavedFile)) (fs : FS) :
    runWrites ws (runWrites ws fs) = runWrites ws fs := by
  funext q
  simp only [runWrites_apply]
  cases h : lastWrite ws q <;> simp [h]

/-- C8: running either script a second time on the same source image
overwrites the first run's files with identical content: both
filesystem transformers are idempotent (each run's output is the same
function of the source image and the fixed constants). -/
theorem scripts_idempotent (img0 : Image) (out : String) (fs : FS) :
    runCropper img0 out (runCropper img0 out fs) = runCropper img0 out fs ∧
    runGenerator img0 (runGenerator img0 fs) = runGenerator img0 fs := by
  constructor
  · funext q
    by_cases hq : q = out <;> simp [runCropper, writeFS, hq]
  · exact runWrites_idem _ _
